import Mathlib

/-!
Verification of the reinforcement calculator (streamlit_app.py).

The numeric domain of the program (Python floats) is embedded as ℚ; every
formula below is transcribed from `calc_for_bar`, the `bars` list, the
`rows` loop and the `warns` loop of the source.  Python's `round(x, n)`
(banker's rounding at ties) is modelled by `pyRound` / `roundTo`, and the
NaN-sentinel spacing, turned into `None` in the returned dict, is modelled
as `Option ℚ`.
-/

/-- Global inputs of the sidebar: A_s, L_wall (ft), t_wall, d_c, l_inf (m),
L_s, t_slab (mm unless noted). -/
structure GlobalInputs where
  A_s : ℚ
  L_wall_ft : ℚ
  t_wall_mm : ℚ
  d_c_mm : ℚ
  l_inf_m : ℚ
  L_s_mm : ℚ
  t_slab_mm : ℚ
deriving DecidableEq

/-- One bar size: label, diameter (mm), area per bar (mm²), hook length (mm). -/
structure BarSpec where
  label : String
  dia : ℚ
  area : ℚ
  hook : ℚ
deriving DecidableEq

/-- mm per foot, the constant MM_PER_FT of the source. -/
def MM_PER_FT : ℚ := 304.8

/-- The defensive floor 1e-9 applied to the per-bar area before division. -/
def AREA_FLOOR : ℚ := 1 / 1000000000

/-- Python's round-half-to-even on an exact rational. -/
def pyRound (q : ℚ) : ℤ :=
  if q - ⌊q⌋ < 1/2 then ⌊q⌋
  else if 1/2 < q - ⌊q⌋ then ⌊q⌋ + 1
  else if ⌊q⌋ % 2 = 0 then ⌊q⌋ else ⌊q⌋ + 1

/-- Python's `round(q, n)`: round to `n` decimal places, ties to even. -/
def roundTo (n : ℕ) (q : ℚ) : ℚ := (pyRound (q * 10 ^ n) : ℚ) / 10 ^ n

/-- Line 109: `n_bars = math.ceil(A_s / max(area, 1e-9)) if A_s > 0 else 0`. -/
def n_bars (g : GlobalInputs) (b : BarSpec) : ℤ :=
  if 0 < g.A_s then ⌈g.A_s / max b.area AREA_FLOOR⌉ else 0

/-- Lines 112-115: spacing in inches, NaN (here `none`) when fewer than 2 bars. -/
def spacing_in (g : GlobalInputs) (b : BarSpec) : Option ℚ :=
  if 2 ≤ n_bars g b then some ((g.L_wall_ft * 12) / ((n_bars g b : ℚ) - 1))
  else none

/-- Line 118: `d = t_slab - d_b/2 - 40` (mm). -/
def d_effective_mm (g : GlobalInputs) (b : BarSpec) : ℚ :=
  g.t_slab_mm - b.dia / 2 - 40

/-- Line 119: `l_db = 16 * d_b` (mm). -/
def l_db_mm (b : BarSpec) : ℚ := 16 * b.dia

/-- Line 120: `l_span = L_s / 16` (mm). -/
def l_span_mm (g : GlobalInputs) : ℚ := g.L_s_mm / 16

/-- Line 121: `l_add = max(d, l_db, l_span)` (mm). -/
def l_add_mm (g : GlobalInputs) (b : BarSpec) : ℚ :=
  max (max (d_effective_mm g b) (l_db_mm b)) (l_span_mm g)

/-- Line 124: `L_req = l_inf*1000 + t_wall + l_h - d_c + l_add` (mm). -/
def L_req_mm (g : GlobalInputs) (b : BarSpec) : ℚ :=
  g.l_inf_m * 1000 + g.t_wall_mm + b.hook - g.d_c_mm + l_add_mm g b

/-- Line 125: `L_03ln = 0.3*L_s + t_wall + l_h - d_c` (mm). -/
def L_03ln_mm (g : GlobalInputs) (b : BarSpec) : ℚ :=
  (3/10) * g.L_s_mm + g.t_wall_mm + b.hook - g.d_c_mm

/-- Line 128: required length converted to feet. -/
def L_req_ft (g : GlobalInputs) (b : BarSpec) : ℚ := L_req_mm g b / MM_PER_FT

/-- Line 129: 0.3·ln length converted to feet. -/
def L_03ln_ft (g : GlobalInputs) (b : BarSpec) : ℚ := L_03ln_mm g b / MM_PER_FT

/-- Line 130: `governing = max(L_req_ft, L_03ln_ft)`. -/
def governing_ft (g : GlobalInputs) (b : BarSpec) : ℚ :=
  max (L_req_ft g b) (L_03ln_ft g b)

/-- The dict returned by `calc_for_bar` (lines 132-145): every numeric field
is rounded for display exactly as the source rounds it. -/
structure ResultRow where
  bar : String
  dia : ℚ
  areaPerBar : ℚ
  nBars : ℤ
  spacing : Option ℚ
  d : ℚ
  l_db : ℚ
  l_span : ℚ
  l_add : ℚ
  L_req : ℚ
  L_03ln : ℚ
  governing : ℚ
deriving DecidableEq

/-- `calc_for_bar` (lines 104-145): the one ResultRow for a bar size. -/
def calc_for_bar (g : GlobalInputs) (b : BarSpec) : ResultRow where
  bar := b.label
  dia := roundTo 2 b.dia
  areaPerBar := roundTo 1 b.area
  nBars := n_bars g b
  spacing := (spacing_in g b).map (roundTo 2)
  d := roundTo 1 (d_effective_mm g b)
  l_db := roundTo 1 (l_db_mm b)
  l_span := roundTo 1 (l_span_mm g)
  l_add := roundTo 1 (l_add_mm g b)
  L_req := roundTo 3 (L_req_ft g b)
  L_03ln := roundTo 3 (L_03ln_ft g b)
  governing := roundTo 3 (governing_ft g b)

/-- The fifteen overridable bar properties of the sidebar (lines 67-90). -/
structure BarParams where
  d10 : ℚ
  d15 : ℚ
  d20 : ℚ
  d25 : ℚ
  d30 : ℚ
  A10 : ℚ
  A15 : ℚ
  A20 : ℚ
  A25 : ℚ
  A30 : ℚ
  h10 : ℚ
  h15 : ℚ
  h20 : ℚ
  h25 : ℚ
  h30 : ℚ
deriving DecidableEq

/-- The `bars` list (lines 94-100): five bar specs in fixed label order. -/
def bars (p : BarParams) : List BarSpec :=
  [⟨"10M", p.d10, p.A10, p.h10⟩,
   ⟨"15M", p.d15, p.A15, p.h15⟩,
   ⟨"20M", p.d20, p.A20, p.h20⟩,
   ⟨"25M", p.d25, p.A25, p.h25⟩,
   ⟨"30M", p.d30, p.A30, p.h30⟩]

/-- The `rows` loop (lines 148-156): `calc_for_bar` applied to each bar. -/
def rows (g : GlobalInputs) (p : BarParams) : List ResultRow :=
  (bars p).map (calc_for_bar g)

/-- A warning appended by the loop at lines 187-192. -/
inductive Warn where
  | fewBars (label : String) (n : ℤ)
  | negDepth (label : String) (d : ℚ)
deriving DecidableEq

/-- The warnings one row contributes (lines 189-192): the `Bars ≤ 1` check
then the `d < 0` check, both on the row's displayed (rounded) fields. -/
def warnsFor (r : ResultRow) : List Warn :=
  (if r.nBars ≤ 1 then [Warn.fewBars r.bar r.nBars] else []) ++
  (if r.d < 0 then [Warn.negDepth r.bar r.d] else [])

/-- The `warns` list (lines 187-192), in row order. -/
def warns (g : GlobalInputs) (p : BarParams) : List Warn :=
  ((rows g p).map warnsFor).flatten

/-- Whether some negative-effective-depth warning names the given label. -/
def hasNegDepthWarn (label : String) (ws : List Warn) : Bool :=
  ws.any fun w =>
    match w with
    | Warn.negDepth l _ => l == label
    | _ => false

/-- Sidebar defaults (lines 47-58). -/
def defaultGlobals : GlobalInputs :=
  ⟨7416, 13.6, 254, 38, 2, 5700, 300⟩

/-- Default bar properties (lines 67-90). -/
def defaultParams : BarParams :=
  ⟨11.3, 16, 19.5, 25.2, 29.9, 100, 200, 300, 500, 700, 200, 250, 300, 400, 500⟩

/-- The default 20M bar spec. -/
def bar20 : BarSpec := ⟨"20M", 19.5, 300, 300⟩

/-! Evaluation lemmas for `pyRound` and `roundTo` on concrete rationals. -/

/-- Evaluation of `pyRound` when the fractional part is below one half. -/
lemma pyRound_eq_of_lt_half {q : ℚ} {z : ℤ} (h1 : (z : ℚ) ≤ q)
    (h2 : q < (z : ℚ) + 1/2) : pyRound q = z := by
  have hf : ⌊q⌋ = z := Int.floor_eq_iff.mpr ⟨h1, by linarith⟩
  unfold pyRound
  rw [hf, if_pos (by linarith)]

/-- Evaluation of `pyRound` when the fractional part is above one half. -/
lemma pyRound_eq_of_half_lt {q : ℚ} {z : ℤ} (h1 : (z : ℚ) + 1/2 < q)
    (h2 : q < (z : ℚ) + 1) : pyRound q = z + 1 := by
  have hf : ⌊q⌋ = z := Int.floor_eq_iff.mpr ⟨by linarith, by linarith⟩
  unfold pyRound
  rw [hf, if_neg (by linarith), if_pos (by linarith)]

/-- Evaluation of `pyRound` at an exact tie with an even integer part. -/
lemma pyRound_eq_half_even {q : ℚ} {z : ℤ} (hq : q = (z : ℚ) + 1/2)
    (hz : z % 2 = 0) : pyRound q = z := by
  have hf : ⌊q⌋ = z := Int.floor_eq_iff.mpr ⟨by rw [hq]; linarith, by rw [hq]; linarith⟩
  unfold pyRound
  rw [hf, if_neg (by rw [hq]; linarith),
    if_neg (by rw [hq]; linarith), if_pos hz]

/-- Evaluation of `pyRound` at an exact tie with an odd integer part. -/
lemma pyRound_eq_half_odd {q : ℚ} {z : ℤ} (hq : q = (z : ℚ) + 1/2)
    (hz : z % 2 = 1) : pyRound q = z + 1 := by
  have hf : ⌊q⌋ = z := Int.floor_eq_iff.mpr ⟨by rw [hq]; linarith, by rw [hq]; linarith⟩
  unfold pyRound
  rw [hf, if_neg (by rw [hq]; linarith),
    if_neg (by rw [hq]; linarith), if_neg (by omega)]

/-- Evaluation of `roundTo` away from a tie, fractional part below one half. -/
lemma roundTo_eq_of_lt_half (n : ℕ) (q : ℚ) (z : ℤ) (h1 : (z : ℚ) ≤ q * 10 ^ n)
    (h2 : q * 10 ^ n < (z : ℚ) + 1/2) : roundTo n q = (z : ℚ) / 10 ^ n := by
  unfold roundTo
  rw [pyRound_eq_of_lt_half h1 h2]

/-- Evaluation of `roundTo` away from a tie, fractional part above one half. -/
lemma roundTo_eq_of_half_lt (n : ℕ) (q : ℚ) (z : ℤ) (h1 : (z : ℚ) + 1/2 < q * 10 ^ n)
    (h2 : q * 10 ^ n < (z : ℚ) + 1) : roundTo n q = ((z : ℚ) + 1) / 10 ^ n := by
  unfold roundTo
  rw [pyRound_eq_of_half_lt h1 h2]
  push_cast
  ring

/-- Evaluation of `roundTo` at a tie whose integer part is even. -/
lemma roundTo_eq_half_even (n : ℕ) (q : ℚ) (z : ℤ) (hq : q * 10 ^ n = (z : ℚ) + 1/2)
    (hz : z % 2 = 0) : roundTo n q = (z : ℚ) / 10 ^ n := by
  unfold roundTo
  rw [pyRound_eq_half_even hq hz]

/-- Evaluation of `roundTo` at a tie whose integer part is odd. -/
lemma roundTo_eq_half_odd (n : ℕ) (q : ℚ) (z : ℤ) (hq : q * 10 ^ n = (z : ℚ) + 1/2)
    (hz : z % 2 = 1) : roundTo n q = ((z : ℚ) + 1) / 10 ^ n := by
  unfold roundTo
  rw [pyRound_eq_half_odd hq hz]
  push_cast
  ring

/-- C1: at the sidebar defaults the 20M row has barCount 25, spacing 6.8 in,
effective depth 250.25 mm, l_db 312 mm, l_span 356.25 mm, l_add 356.25 mm,
and, after rounding to 3 decimals, L_req 9.423 ft, L_03ln 7.303 ft and
governing length 9.423 ft. -/
theorem c1_default_20M_row :
    n_bars defaultGlobals bar20 = 25 ∧
    spacing_in defaultGlobals bar20 = some 6.8 ∧
    d_effective_mm defaultGlobals bar20 = 250.25 ∧
    l_db_mm bar20 = 312 ∧
    l_span_mm defaultGlobals = 356.25 ∧
    l_add_mm defaultGlobals bar20 = 356.25 ∧
    roundTo 3 (L_req_ft defaultGlobals bar20) = 9.423 ∧
    roundTo 3 (L_03ln_ft defaultGlobals bar20) = 7.303 ∧
    roundTo 3 (governing_ft defaultGlobals bar20) = 9.423 := by
  have hnb : n_bars defaultGlobals bar20 = 25 := by
    norm_num [n_bars, AREA_FLOOR, max_def, defaultGlobals, bar20, Int.ceil_eq_iff]
  have hadd : l_add_mm defaultGlobals bar20 = 356.25 := by
    norm_num [l_add_mm, d_effective_mm, l_db_mm, l_span_mm, max_def, defaultGlobals, bar20]
  have hreq : L_req_ft defaultGlobals bar20 = 2872.25 / 304.8 := by
    unfold L_req_ft L_req_mm
    rw [hadd]
    norm_num [MM_PER_FT, defaultGlobals, bar20]
  have h03 : L_03ln_ft defaultGlobals bar20 = 2226 / 304.8 := by
    norm_num [L_03ln_ft, L_03ln_mm, MM_PER_FT, defaultGlobals, bar20]
  have hreqr : roundTo 3 (L_req_ft defaultGlobals bar20) = 9.423 := by
    rw [hreq, roundTo_eq_of_lt_half 3 _ 9423 (by norm_num) (by norm_num)]
    norm_num
  refine ⟨hnb, ?_, ?_, ?_, ?_, hadd, hreqr, ?_, ?_⟩
  · unfold spacing_in
    rw [hnb]
    norm_num [defaultGlobals]
  · norm_num [d_effective_mm, defaultGlobals, bar20]
  · norm_num [l_db_mm, bar20]
  · norm_num [l_span_mm, defaultGlobals]
  · rw [h03, roundTo_eq_of_lt_half 3 _ 7303 (by norm_num) (by norm_num)]
    norm_num
  · unfold governing_ft
    rw [max_eq_left (by rw [hreq, h03]; norm_num), hreqr]

/-! Monotonicity of Python rounding, needed for the max-invariants. -/

/-- Rounding half-to-even preserves order. -/
lemma pyRound_mono {q q' : ℚ} (h : q ≤ q') : pyRound q ≤ pyRound q' := by
  have hf : ⌊q⌋ ≤ ⌊q'⌋ := Int.floor_le_floor h
  have hq1 : (⌊q⌋ : ℚ) ≤ q := Int.floor_le q
  have hq2 : q < ⌊q⌋ + 1 := Int.lt_floor_add_one q
  have hq1' : (⌊q'⌋ : ℚ) ≤ q' := Int.floor_le q'
  have hq2' : q' < ⌊q'⌋ + 1 := Int.lt_floor_add_one q'
  rcases lt_or_eq_of_le hf with hlt | heq
  · unfold pyRound
    split_ifs <;> omega
  · unfold pyRound
    rw [← heq]
    have hr : q - ⌊q⌋ ≤ q' - ⌊q⌋ := by linarith
    split_ifs <;> first | omega | (exfalso; linarith)

/-- Rounding to a fixed number of decimals preserves order. -/
lemma roundTo_mono (n : ℕ) {q q' : ℚ} (h : q ≤ q') : roundTo n q ≤ roundTo n q' := by
  have h10 : (0 : ℚ) < 10 ^ n := by positivity
  have hm : ((pyRound (q * 10 ^ n) : ℚ)) ≤ (pyRound (q' * 10 ^ n) : ℚ) := by
    exact_mod_cast pyRound_mono (mul_le_mul_of_nonneg_right h h10.le)
  unfold roundTo
  exact (div_le_div_iff_of_pos_right h10).mpr hm

/-- Rounding commutes with binary max. -/
lemma roundTo_max (n : ℕ) (a b : ℚ) :
    roundTo n (max a b) = max (roundTo n a) (roundTo n b) := by
  rcases le_total a b with h | h
  · rw [max_eq_right h, max_eq_right (roundTo_mono n h)]
  · rw [max_eq_left h, max_eq_left (roundTo_mono n h)]

/-- C2: the returned row satisfies the two max invariants — governing length is
the max of the two candidate lengths and l_add is the max of d, l_db, l_span —
so in particular l_add dominates each of its three candidates. -/
theorem c2_max_invariants (g : GlobalInputs) (b : BarSpec) :
    (calc_for_bar g b).governing = max (calc_for_bar g b).L_req (calc_for_bar g b).L_03ln ∧
    (calc_for_bar g b).l_add =
      max (max (calc_for_bar g b).d (calc_for_bar g b).l_db) (calc_for_bar g b).l_span ∧
    (calc_for_bar g b).d ≤ (calc_for_bar g b).l_add ∧
    (calc_for_bar g b).l_db ≤ (calc_for_bar g b).l_add ∧
    (calc_for_bar g b).l_span ≤ (calc_for_bar g b).l_add := by
  have hg : (calc_for_bar g b).governing =
      max (calc_for_bar g b).L_req (calc_for_bar g b).L_03ln := by
    simp only [calc_for_bar, governing_ft]
    exact roundTo_max 3 _ _
  have ha : (calc_for_bar g b).l_add =
      max (max (calc_for_bar g b).d (calc_for_bar g b).l_db) (calc_for_bar g b).l_span := by
    simp only [calc_for_bar, l_add_mm]
    rw [roundTo_max 1, roundTo_max 1]
  refine ⟨hg, ha, ?_, ?_, ?_⟩
  · rw [ha]
    exact le_max_of_le_left (le_max_left _ _)
  · rw [ha]
    exact le_max_of_le_left (le_max_right _ _)
  · rw [ha]
    exact le_max_right _ _

/-- C3: the computed bar count is the least integer n whose total area
n·max(areaPerBar, 1e-9) covers the required area, and it is 0 at zero
required area. -/
theorem c3_barCount_least (g : GlobalInputs) (b : BarSpec)
    (hA : 0 ≤ g.A_s) (_hone : 0 ≤ b.area) :
    g.A_s ≤ (n_bars g b : ℚ) * max b.area AREA_FLOOR ∧
    (∀ m : ℤ, g.A_s ≤ (m : ℚ) * max b.area AREA_FLOOR → n_bars g b ≤ m) ∧
    (g.A_s = 0 → n_bars g b = 0) := by
  have hpos : (0 : ℚ) < max b.area AREA_FLOOR :=
    lt_max_of_lt_right (by norm_num [AREA_FLOOR])
  rcases lt_or_eq_of_le hA with hA0 | hA0
  · have hnb : n_bars g b = ⌈g.A_s / max b.area AREA_FLOOR⌉ := by
      rw [n_bars, if_pos hA0]
    refine ⟨?_, ?_, ?_⟩
    · rw [hnb, ← div_le_iff₀ hpos]
      exact Int.le_ceil _
    · intro m hm
      rw [hnb]
      exact Int.ceil_le.mpr ((div_le_iff₀ hpos).mpr hm)
    · intro h0
      rw [h0] at hA0
      exact absurd hA0 (lt_irrefl 0)
  · have hnb : n_bars g b = 0 := by
      rw [n_bars, if_neg (by rw [← hA0]; exact lt_irrefl 0)]
    refine ⟨?_, ?_, fun _ => hnb⟩
    · rw [hnb, ← hA0]
      norm_num
    · intro m hm
      rw [hnb]
      by_contra hneg
      push_neg at hneg
      have hm0 : (m : ℚ) < 0 := by exact_mod_cast hneg
      have : (m : ℚ) * max b.area AREA_FLOOR < 0 := mul_neg_of_neg_of_pos hm0 hpos
      rw [← hA0] at hm
      linarith

/-- The bar count at the sidebar defaults for the 20M bar. -/
lemma n_bars_default20 : n_bars defaultGlobals bar20 = 25 := by
  norm_num [n_bars, AREA_FLOOR, max_def, defaultGlobals, bar20, Int.ceil_eq_iff]

/-- C3 witness at the defaults: 25 bars of 300 mm² cover 7416 mm². -/
theorem c3_barCount_least_witness :
    0 ≤ defaultGlobals.A_s ∧ 0 ≤ bar20.area ∧
    defaultGlobals.A_s ≤ (n_bars defaultGlobals bar20 : ℚ) * max bar20.area AREA_FLOOR := by
  refine ⟨by norm_num [defaultGlobals], by norm_num [bar20], ?_⟩
  exact (c3_barCount_least defaultGlobals bar20 (by norm_num [defaultGlobals])
    (by norm_num [bar20])).1

/-- C6: the returned spacing is `none` exactly when fewer than two bars are
needed, and with at least two bars the un-rounded spacing is exactly
wallLength·12/(barCount−1). -/
theorem c6_spacing (g : GlobalInputs) (b : BarSpec) :
    ((calc_for_bar g b).spacing = none ↔ n_bars g b < 2) ∧
    (spacing_in g b = none ↔ n_bars g b < 2) ∧
    (2 ≤ n_bars g b →
      spacing_in g b = some ((g.L_wall_ft * 12) / ((n_bars g b : ℚ) - 1))) := by
  have hs : spacing_in g b = none ↔ n_bars g b < 2 := by
    unfold spacing_in
    split_ifs with h
    · have h2 : ¬ (n_bars g b < 2) := by omega
      simp [h2]
    · have h2 : n_bars g b < 2 := by omega
      simp [h2]
  refine ⟨?_, hs, ?_⟩
  · simp only [calc_for_bar]
    rw [Option.map_eq_none']
    exact hs
  · intro h
    unfold spacing_in
    rw [if_pos h]

/-- C6 witness at the defaults: 25 bars, spacing 163.2/24 inches. -/
theorem c6_spacing_witness :
    2 ≤ n_bars defaultGlobals bar20 ∧
    spacing_in defaultGlobals bar20 =
      some ((defaultGlobals.L_wall_ft * 12) / ((n_bars defaultGlobals bar20 : ℚ) - 1)) := by
  have h2 : 2 ≤ n_bars defaultGlobals bar20 := by rw [n_bars_default20]; norm_num
  exact ⟨h2, (c6_spacing defaultGlobals bar20).2.2 h2⟩

/-- C7: the calculator is total on every input: the area divisor is floored
to a positive value, the spacing divisor is nonzero whenever it is used, and
the full row — negative effective depth included — is always returned. -/
theorem c7_total (g : GlobalInputs) (b : BarSpec) :
    0 < max b.area AREA_FLOOR ∧
    (2 ≤ n_bars g b → ((n_bars g b : ℚ) - 1) ≠ 0) ∧
    calc_for_bar g b =
      { bar := b.label, dia := roundTo 2 b.dia, areaPerBar := roundTo 1 b.area,
        nBars := n_bars g b, spacing := (spacing_in g b).map (roundTo 2),
        d := roundTo 1 (d_effective_mm g b), l_db := roundTo 1 (l_db_mm b),
        l_span := roundTo 1 (l_span_mm g), l_add := roundTo 1 (l_add_mm g b),
        L_req := roundTo 3 (L_req_ft g b), L_03ln := roundTo 3 (L_03ln_ft g b),
        governing := roundTo 3 (governing_ft g b) } := by
  refine ⟨lt_max_of_lt_right (by norm_num [AREA_FLOOR]), ?_, rfl⟩
  intro h
  have h2 : (2 : ℚ) ≤ (n_bars g b : ℚ) := by exact_mod_cast h
  have : (0 : ℚ) < (n_bars g b : ℚ) - 1 := by linarith
  exact ne_of_gt this

/-- An input with zero bar area and a slab thinner than the cover. -/
def degenerateGlobals : GlobalInputs := ⟨7416, 13.6, 254, 38, 2, 5700, 0⟩

/-- A 20M-like bar whose area was overridden to zero. -/
def barZeroArea : BarSpec := ⟨"20M", 19.5, 0, 300⟩

/-- The bar count under the zero-area override: the 1e-9 floor kicks in. -/
lemma n_bars_degenerate : n_bars degenerateGlobals barZeroArea = 7416000000000 := by
  norm_num [n_bars, AREA_FLOOR, max_def, degenerateGlobals, barZeroArea, Int.ceil_eq_iff]

/-- C7 witness on the degenerate input: zero bar area and a 0 mm slab still
give a positive divisor and a usable spacing denominator. -/
theorem c7_total_witness :
    0 < max barZeroArea.area AREA_FLOOR ∧
    ((n_bars degenerateGlobals barZeroArea : ℚ) - 1) ≠ 0 := by
  refine ⟨(c7_total degenerateGlobals barZeroArea).1, ?_⟩
  exact (c7_total degenerateGlobals barZeroArea).2.1
    (by rw [n_bars_degenerate]; norm_num)

/-- C9: the calculator is deterministic — equal inputs give equal rows. -/
theorem c9_deterministic (g g' : GlobalInputs) (b b' : BarSpec)
    (hg : g = g') (hb : b = b') : calc_for_bar g b = calc_for_bar g' b' := by
  rw [hg, hb]

/-- C9 witness: the default 20M row recomputed equals itself. -/
theorem c9_deterministic_witness :
    calc_for_bar defaultGlobals bar20 = calc_for_bar defaultGlobals bar20 :=
  c9_deterministic defaultGlobals defaultGlobals bar20 bar20 rfl rfl

/-- C10: with a non-negative diameter the add-on length is non-negative
(l_db = 16·dia is always a candidate of the max), so the required length in
mm never drops below l_inf·1000 + t_wall + hook − cover. -/
theorem c10_addOn_nonneg (g : GlobalInputs) (b : BarSpec) (hd : 0 ≤ b.dia) :
    0 ≤ l_add_mm g b ∧
    g.l_inf_m * 1000 + g.t_wall_mm + b.hook - g.d_c_mm ≤ L_req_mm g b := by
  have hdb : 0 ≤ l_db_mm b := mul_nonneg (by norm_num) hd
  have hle : l_db_mm b ≤ l_add_mm g b := le_max_of_le_left (le_max_right _ _)
  constructor
  · linarith
  · unfold L_req_mm
    linarith

/-- C10 witness at the defaults: the 20M add-on length is non-negative. -/
theorem c10_addOn_nonneg_witness :
    0 ≤ bar20.dia ∧ 0 ≤ l_add_mm defaultGlobals bar20 :=
  ⟨by norm_num [bar20], (c10_addOn_nonneg defaultGlobals bar20 (by norm_num [bar20])).1⟩

/-! The warning pass: how `warns` relates to the per-row effective depths. -/

/-- Scanning for a negative-depth warning distributes over list append. -/
lemma hasNegDepthWarn_append (l : String) (ws1 ws2 : List Warn) :
    hasNegDepthWarn l (ws1 ++ ws2) =
      (hasNegDepthWarn l ws1 || hasNegDepthWarn l ws2) := by
  simp [hasNegDepthWarn]

/-- One row contributes a negative-depth warning for `l` exactly when it is
that row's label and the row's displayed depth is negative. -/
lemma hasNegDepthWarn_warnsFor (l : String) (r : ResultRow) :
    hasNegDepthWarn l (warnsFor r) = (r.bar == l && decide (r.d < 0)) := by
  unfold warnsFor hasNegDepthWarn
  split_ifs with h1 h2 <;> simp_all

/-- The warning list written out over the five rows. -/
lemma warns_expand (g : GlobalInputs) (p : BarParams) :
    warns g p =
      warnsFor (calc_for_bar g ⟨"10M", p.d10, p.A10, p.h10⟩) ++
      (warnsFor (calc_for_bar g ⟨"15M", p.d15, p.A15, p.h15⟩) ++
      (warnsFor (calc_for_bar g ⟨"20M", p.d20, p.A20, p.h20⟩) ++
      (warnsFor (calc_for_bar g ⟨"25M", p.d25, p.A25, p.h25⟩) ++
      (warnsFor (calc_for_bar g ⟨"30M", p.d30, p.A30, p.h30⟩) ++ [])))) := rfl

/-- A bar of the table is flagged for negative depth exactly when its
displayed (rounded to 1 decimal) effective depth is negative. -/
lemma negDepth_flag (g : GlobalInputs) (p : BarParams) (b : BarSpec)
    (hb : b ∈ bars p) :
    (hasNegDepthWarn b.label (warns g p) = true ↔
      roundTo 1 (d_effective_mm g b) < 0) := by
  have hd : ∀ b' : BarSpec, (calc_for_bar g b').d = roundTo 1 (d_effective_mm g b') :=
    fun _ => rfl
  have hl : ∀ b' : BarSpec, (calc_for_bar g b').bar = b'.label := fun _ => rfl
  simp only [bars, List.mem_cons, List.mem_singleton, List.not_mem_nil, or_false] at hb
  rw [warns_expand]
  rcases hb with rfl | rfl | rfl | rfl | rfl <;>
    simp [hasNegDepthWarn_append, hasNegDepthWarn_warnsFor, hd, hl, beq_iff_eq,
      decide_eq_true_eq]

/-- The default 10M bar spec. -/
def bar10 : BarSpec := ⟨"10M", 11.3, 100, 200⟩

/-- Defaults with the slab thinned to 45.62 mm: the 10M depth is −0.03 mm. -/
def gThin : GlobalInputs := ⟨7416, 13.6, 254, 38, 2, 5700, 45.62⟩

/-- C5 counterexample: at slabThickness 45.62 mm the 10M effective depth is
−0.03 mm, strictly negative at full precision, yet no negative-depth warning
is emitted, because the code tests the depth already rounded to 1 decimal
(−0.03 rounds to −0.0, which is not < 0). -/
theorem c5_counterexample :
    d_effective_mm gThin bar10 < 0 ∧
    hasNegDepthWarn "10M" (warns gThin defaultParams) = false := by
  constructor
  · norm_num [d_effective_mm, gThin, bar10]
  · have hb : bar10 ∈ bars defaultParams := by
      simp [bars, defaultParams, bar10]
    have h := negDepth_flag gThin defaultParams bar10 hb
    have hr : roundTo 1 (d_effective_mm gThin bar10) = 0 := by
      have hv : d_effective_mm gThin bar10 = -3/100 := by
        norm_num [d_effective_mm, gThin, bar10]
      rw [hv, roundTo_eq_of_half_lt 1 _ (-1) (by norm_num) (by norm_num)]
      norm_num
    have hfalse : ¬ (hasNegDepthWarn bar10.label (warns gThin defaultParams) = true) := by
      rw [h, hr]
      norm_num
    simp only [Bool.not_eq_true] at hfalse
    exact hfalse

/-- C5 as amended: a bar of the table receives the negative-effective-depth
warning exactly when its effective depth rounded to 1 decimal place — the
displayed value, which is what line 191 of the source inspects — is strictly
negative. -/
theorem c5_warning_uses_rounded_depth (g : GlobalInputs) (p : BarParams)
    (b : BarSpec) (hb : b ∈ bars p) :
    (hasNegDepthWarn b.label (warns g p) = true ↔
      roundTo 1 (d_effective_mm g b) < 0) :=
  negDepth_flag g p b hb

/-- C5 witness: for the default 10M bar at slabThickness 30 the rounded
depth −15.6 is negative and the warning indeed fires. -/
theorem c5_warning_uses_rounded_depth_witness :
    bar10 ∈ bars defaultParams ∧
    (hasNegDepthWarn bar10.label (warns ⟨7416, 13.6, 254, 38, 2, 5700, 30⟩ defaultParams) = true ↔
      roundTo 1 (d_effective_mm ⟨7416, 13.6, 254, 38, 2, 5700, 30⟩ bar10) < 0) := by
  have hb : bar10 ∈ bars defaultParams := by
    simp [bars, defaultParams, bar10]
  exact ⟨hb, c5_warning_uses_rounded_depth ⟨7416, 13.6, 254, 38, 2, 5700, 30⟩ defaultParams bar10 hb⟩

/-- Defaults with the slab set to 30 mm, the spec's warning scenario. -/
def g30 : GlobalInputs := ⟨7416, 13.6, 254, 38, 2, 5700, 30⟩

/-- C4 counterexample: at slabThickness 30 the warning also fires for 10M
(its depth 30 − 11.3/2 − 40 = −15.65 mm is negative too), refuting the
claim that only the 30M label receives it. -/
theorem c4_counterexample :
    hasNegDepthWarn "10M" (warns g30 defaultParams) = true := by
  have hb : bar10 ∈ bars defaultParams := by
    simp [bars, defaultParams, bar10]
  have h := negDepth_flag g30 defaultParams bar10 hb
  apply h.mpr
  have hv : d_effective_mm g30 bar10 = -15.65 := by
    norm_num [d_effective_mm, g30, bar10]
  rw [hv, roundTo_eq_half_odd 1 _ (-157) (by norm_num) (by decide)]
  norm_num

/-- C4 as amended: at slabThickness 30 with all bars at their defaults the
negative-effective-depth warning fires for every one of the five labels,
the 30M included. -/
theorem c4_amended_all_bars_warned :
    hasNegDepthWarn "10M" (warns g30 defaultParams) = true ∧
    hasNegDepthWarn "15M" (warns g30 defaultParams) = true ∧
    hasNegDepthWarn "20M" (warns g30 defaultParams) = true ∧
    hasNegDepthWarn "25M" (warns g30 defaultParams) = true ∧
    hasNegDepthWarn "30M" (warns g30 defaultParams) = true := by
  have hmem : ∀ b : BarSpec, b ∈ bars defaultParams →
      roundTo 1 (d_effective_mm g30 b) < 0 →
      hasNegDepthWarn b.label (warns g30 defaultParams) = true :=
    fun b hb hd => (negDepth_flag g30 defaultParams b hb).mpr hd
  refine ⟨?_, ?_, ?_, ?_, ?_⟩
  · apply hmem ⟨"10M", 11.3, 100, 200⟩ (by simp [bars, defaultParams])
    have hv : d_effective_mm g30 ⟨"10M", 11.3, 100, 200⟩ = -15.65 := by
      norm_num [d_effective_mm, g30]
    rw [hv, roundTo_eq_half_odd 1 _ (-157) (by norm_num) (by decide)]
    norm_num
  · apply hmem ⟨"15M", 16, 200, 250⟩ (by simp [bars, defaultParams])
    have hv : d_effective_mm g30 ⟨"15M", 16, 200, 250⟩ = -18 := by
      norm_num [d_effective_mm, g30]
    rw [hv, roundTo_eq_of_lt_half 1 _ (-180) (by norm_num) (by norm_num)]
    norm_num
  · apply hmem ⟨"20M", 19.5, 300, 300⟩ (by simp [bars, defaultParams])
    have hv : d_effective_mm g30 ⟨"20M", 19.5, 300, 300⟩ = -19.75 := by
      norm_num [d_effective_mm, g30]
    rw [hv, roundTo_eq_half_even 1 _ (-198) (by norm_num) (by decide)]
    norm_num
  · apply hmem ⟨"25M", 25.2, 500, 400⟩ (by simp [bars, defaultParams])
    have hv : d_effective_mm g30 ⟨"25M", 25.2, 500, 400⟩ = -22.6 := by
      norm_num [d_effective_mm, g30]
    rw [hv, roundTo_eq_of_lt_half 1 _ (-226) (by norm_num) (by norm_num)]
    norm_num
  · apply hmem ⟨"30M", 29.9, 700, 500⟩ (by simp [bars, defaultParams])
    have hv : d_effective_mm g30 ⟨"30M", 29.9, 700, 500⟩ = -24.95 := by
      norm_num [d_effective_mm, g30]
    rw [hv, roundTo_eq_half_even 1 _ (-250) (by norm_num) (by decide)]
    norm_num

/-- C8: the table always has exactly five rows, labelled 10M, 15M, 20M, 25M,
30M in that order, and row i is a function of the globals and bar i alone:
if two parameter sets agree on bar i, row i is identical under them. -/
theorem c8_table_shape (g : GlobalInputs) (p p' : BarParams) :
    (rows g p).length = 5 ∧
    (rows g p).map ResultRow.bar = ["10M", "15M", "20M", "25M", "30M"] ∧
    (∀ i : Fin 5, (bars p).get i = (bars p').get i →
      (rows g p).get i = (rows g p').get i) := by
  refine ⟨rfl, rfl, ?_⟩
  intro i h
  fin_cases i <;> exact congrArg (calc_for_bar g) h

/-- The defaults with only the 10M diameter overridden. -/
def alteredParams : BarParams :=
  ⟨99, 16, 19.5, 25.2, 29.9, 100, 200, 300, 500, 700, 200, 250, 300, 400, 500⟩

/-- C8 witness: changing the 10M diameter leaves the 20M row (index 2)
unchanged. -/
theorem c8_table_shape_witness :
    (bars defaultParams).get (2 : Fin 5) = (bars alteredParams).get (2 : Fin 5) ∧
    (rows defaultGlobals defaultParams).get (2 : Fin 5) =
      (rows defaultGlobals alteredParams).get (2 : Fin 5) := by
  have h : (bars defaultParams).get (2 : Fin 5) = (bars alteredParams).get (2 : Fin 5) := rfl
  exact ⟨h, (c8_table_shape defaultGlobals defaultParams alteredParams).2.2 2 h⟩
